import Mathlib

/-!
Verification of yellowlet (async → sync Worker-thread bridge)

Shallow embedding of `src/yellowlet.ts` and `src/isTransferable.ts`:
the transfer classifier, the message envelopes, the shared signal-word
protocol of one synchronous invocation, the factory, and the
caller-side session lifecycle.
-/

namespace Yellowlet

/-- Abstract universe of JavaScript runtime values exchanged across the
thread boundary.  Objects that the transfer classifier distinguishes get
their own constructors (each carrying an identity tag); a plain object is
abstracted to its list of property names (so the empty object literal is
`plainObj []`); an `Error` instance carries its `name` and `message`; the
global object is its own value so that identity comparison with
`globalThis` is expressible. -/
inductive JSValue where
  | null
  | undef
  | boolean (b : Bool)
  | num (n : Int)
  | str (s : String)
  | func (name : String)
  | globalObj
  | arrayBuffer (ident : Nat)
  | messagePort (ident : Nat)
  | readableStream (ident : Nat)
  | writableStream (ident : Nat)
  | transformStream (ident : Nat)
  | imageBitmap (ident : Nat)
  | offscreenCanvas (ident : Nat)
  | plainObj (keys : List String)
  | errorObj (name message : String)
deriving DecidableEq, Repr

/-- Which optional global constructors the platform provides: the source
guards the `ImageBitmap` and `OffscreenCanvas` checks with
`typeof X !== "undefined"`. -/
structure Platform where
  hasImageBitmap : Bool
  hasOffscreenCanvas : Bool
deriving DecidableEq, Repr

/-- JavaScript truthiness, `!!o`. -/
def truthy : JSValue → Bool
  | .null => false
  | .undef => false
  | .boolean b => b
  | .num n => decide (n ≠ 0)
  | .str s => decide (s ≠ "")
  | _ => true

/-- The check `typeof o === "object"` (true for `null` in JavaScript; false for
primitives and functions). -/
def typeofIsObject : JSValue → Bool
  | .null => true
  | .undef => false
  | .boolean _ => false
  | .num _ => false
  | .str _ => false
  | .func _ => false
  | _ => true

/-- The check `ArrayBuffer.prototype.isPrototypeOf(o)`. -/
def isArrayBufferInst : JSValue → Bool
  | .arrayBuffer _ => true
  | _ => false

/-- The check `MessagePort.prototype.isPrototypeOf(o)`. -/
def isMessagePortInst : JSValue → Bool
  | .messagePort _ => true
  | _ => false

/-- The check `ReadableStream.prototype.isPrototypeOf(o)`. -/
def isReadableStreamInst : JSValue → Bool
  | .readableStream _ => true
  | _ => false

/-- The check `WritableStream.prototype.isPrototypeOf(o)`. -/
def isWritableStreamInst : JSValue → Bool
  | .writableStream _ => true
  | _ => false

/-- The check `TransformStream.prototype.isPrototypeOf(o)`. -/
def isTransformStreamInst : JSValue → Bool
  | .transformStream _ => true
  | _ => false

/-- The check `ImageBitmap.prototype.isPrototypeOf(o)`. -/
def isImageBitmapInst : JSValue → Bool
  | .imageBitmap _ => true
  | _ => false

/-- The check `OffscreenCanvas.prototype.isPrototypeOf(o)`. -/
def isOffscreenCanvasInst : JSValue → Bool
  | .offscreenCanvas _ => true
  | _ => false

/-- Translation of `isTransferable` (`src/isTransferable.ts`, also inlined
in `workerMain` of `src/yellowlet.ts` lines 47–61):
`!!o && typeof o === "object" && (ArrayBuffer.prototype.isPrototypeOf(o)
|| … || (typeof ImageBitmap !== "undefined" && ImageBitmap.prototype.isPrototypeOf(o))
|| (typeof OffscreenCanvas !== "undefined" && OffscreenCanvas.prototype.isPrototypeOf(o)))`. -/
def isTransferable (p : Platform) (o : JSValue) : Bool :=
  truthy o &&
  typeofIsObject o &&
  (isArrayBufferInst o ||
   isMessagePortInst o ||
   isReadableStreamInst o ||
   isWritableStreamInst o ||
   isTransformStreamInst o ||
   (p.hasImageBitmap && isImageBitmapInst o) ||
   (p.hasOffscreenCanvas && isOffscreenCanvasInst o))

/-- Spec-side classifier, written from the spec's words (§4.1 and claim C5):
true exactly for a non-null object that is an ArrayBuffer, MessagePort,
ReadableStream, WritableStream, TransformStream, or — when the platform
provides them — ImageBitmap or OffscreenCanvas; false for null, undefined,
primitives, functions, and every other object. -/
def specTransferable (p : Platform) (o : JSValue) : Bool :=
  match o with
  | .arrayBuffer _ => true
  | .messagePort _ => true
  | .readableStream _ => true
  | .writableStream _ => true
  | .transformStream _ => true
  | .imageBitmap _ => p.hasImageBitmap
  | .offscreenCanvas _ => p.hasOffscreenCanvas
  | _ => false

/-- The `CallMessageData` envelope (`src/yellowlet.ts` lines 29–34): correlation id,
`this`-context value, and the ordered argument list. -/
structure CallMessageData where
  id : String
  thisVal : JSValue
  arguments : List JSValue
deriving DecidableEq, Repr

/-- A message as drained from the port by the caller: the caller inspects
`data.id` and `data.type` before trusting the shape
(`src/yellowlet.ts` lines 176–187), so the type is kept as a raw string.
`FulfilledMessageData` is `⟨"fulfilled", id, value⟩` and
`RejectedMessageData` is `⟨"rejected", id, reason⟩`
(lines 35–44). -/
structure RawMessage where
  type : String
  id : String
  payload : JSValue
deriving DecidableEq, Repr

/-- What a call to the wrapper does at the call site: return a value or
throw one. -/
inductive RunOutcome where
  | returns (v : JSValue)
  | throws (e : JSValue)
deriving DecidableEq, Repr

/-- The empty object literal `{}` thrown by `run` on a protocol violation
(`src/yellowlet.ts` lines 183 and 186). -/
def emptyObject : JSValue := .plainObj []

/-- Observable protocol events of one invocation, in program order. -/
inductive Event where
  | sigWrite (v : Nat)
  | callPosted (id : String)
  | settlePosted (m : RawMessage)
  | drained
deriving DecidableEq, Repr

/-- Shared session state: the signal word (`new Int32Array(signalSharedBuffer)`,
initially 0), the two directions of the user `MessageChannel` port queues
(`toWorker` feeds `port2`, transferred to the worker; `toCaller` is `port1`,
which `receiveMessageOnPort(port)` drains), the Worker object's owner
channel (what `globalThis.postMessage` inside the worker delivers to,
observable only through a `worker.onmessage` handler — the source never
registers one), and a log of protocol events for stating ordering
properties. -/
structure SessionState where
  signal : Nat
  toWorker : List CallMessageData
  toCaller : List RawMessage
  ownerQueue : List RawMessage
  log : List Event
deriving DecidableEq, Repr

/-- A fresh session right after the factory ran: signal word `0`
(`Available`), all queues empty. -/
def initState : SessionState :=
  { signal := 0, toWorker := [], toCaller := [], ownerQueue := [],
    log := [] }

/-- The substitution `const that = this === globalThis ? undefined : this`
(`src/yellowlet.ts` line 158). -/
def computeThat (thisVal : JSValue) : JSValue :=
  if thisVal = .globalObj then .undef else thisVal

/-- Caller-side send phase of `run` (`src/yellowlet.ts` lines 154–167):
generate a correlation id (taken as a parameter here), set the signal word
to `1` (`Pending`), build the call envelope with the substituted
`this`-context, and post it on the port.  No check of the signal's prior
value is performed. -/
def callerSend (st : SessionState) (thisVal : JSValue) (args : List JSValue)
    (id : String) : SessionState × CallMessageData :=
  let that := computeThat thisVal
  let env : CallMessageData := ⟨id, that, args⟩
  ({ st with
      signal := 1,
      toWorker := st.toWorker ++ [env],
      log := st.log ++ [.sigWrite 1, .callPosted id] },
   env)

/-- Worker-side dispatcher for one call envelope, from the `message`
handler installed by `workerMain` (`src/yellowlet.ts` lines 68–89): run
`f.call(that, ...args)`; on success post
`{type:"fulfilled", id, value}` and on a raised/rejected reason post
`{type:"rejected", id, reason}`, in both cases posting the settle envelope
first and only then writing `2` (`Resolved`) into the signal word and
notifying the waiter.  Crucially, both posts use `globalThis.postMessage`
(lines 74 and 83), which inside a `Worker` delivers to the Worker
object's owner channel, NOT to the transferred `MessageChannel` port the
worker received in the open envelope — so the settle envelope lands in
`ownerQueue`, never in `toCaller`.  The computation `f` is modelled as a
function from the `this`-context and argument list to
`Except reason value`. -/
def workerMain (f : JSValue → List JSValue → Except JSValue JSValue)
    (st : SessionState) (env : CallMessageData) : SessionState :=
  match f env.thisVal env.arguments with
  | .ok value =>
      let m : RawMessage := ⟨"fulfilled", env.id, value⟩
      { st with
          ownerQueue := st.ownerQueue ++ [m],
          signal := 2,
          log := st.log ++ [.settlePosted m, .sigWrite 2] }
  | .error reason =>
      let m : RawMessage := ⟨"rejected", env.id, reason⟩
      { st with
          ownerQueue := st.ownerQueue ++ [m],
          signal := 2,
          log := st.log ++ [.settlePosted m, .sigWrite 2] }

/-- Settle handling of `run` (`src/yellowlet.ts` lines 176–187): if the
drained message's id matches the call's id, a `"fulfilled"` envelope's
value is returned and a `"rejected"` envelope's reason is thrown; any
other type, and any id mismatch, throws the empty object `{}`. -/
def settleResult (id : String) (data : RawMessage) : RunOutcome :=
  if data.id = id then
    if data.type = "fulfilled" then .returns data.payload
    else if data.type = "rejected" then .throws data.payload
    else .throws emptyObject
  else .throws emptyObject

/-- The TypeError raised at `src/yellowlet.ts` line 174 when
`receiveMessageOnPort(port)` finds the port queue empty and returns
`undefined`, whose `.message` property access then throws. -/
def undefinedMessageTypeError : JSValue :=
  .errorObj "TypeError"
    "Cannot read properties of undefined (reading message)"

/-- Caller-side receive phase of `run` (`src/yellowlet.ts` lines 169–187):
after `Atomics.wait(signal, 0, 1)` returns, reset the signal word to `0`
(`Available`), then drain the pending message of `port1` with
`receiveMessageOnPort(port)` and settle.  Draining an empty queue makes
`receiveMessageOnPort` return `undefined`, so `undefined.message` raises a
TypeError at line 174. -/
def callerReceive (st : SessionState) (id : String) :
    SessionState × RunOutcome :=
  let st1 : SessionState :=
    { st with signal := 0, log := st.log ++ [.sigWrite 0] }
  match st1.toCaller with
  | m :: rest =>
      ({ st1 with toCaller := rest, log := st1.log ++ [.drained] },
       settleResult id m)
  | [] =>
      (st1, .throws undefinedMessageTypeError)

/-- One complete synchronous invocation of the wrapper `run`
(`src/yellowlet.ts` lines 154–187): the caller sets the signal to
`Pending` and posts the call envelope; `Atomics.wait` blocks the caller
while the dispatcher handles the envelope, posts the settle envelope (to
the Worker's owner channel) and resolves the signal; the caller then
resumes, resets the signal and drains `port1` — which nothing in the
source ever posts to. -/
def invoke (f : JSValue → List JSValue → Except JSValue JSValue)
    (st : SessionState) (thisVal : JSValue) (args : List JSValue)
    (id : String) : SessionState × RunOutcome :=
  let sent := callerSend st thisVal args id
  let st2 := workerMain f sent.1 sent.2
  callerReceive st2 id

/-- The check `typeof f === "function"`. -/
def isFunction : JSValue → Bool
  | .func _ => true
  | _ => false

/-- Side effects of the factory body, in the order the source performs
them: `new Worker(...)` (line 129), `new MessageChannel()` (line 133),
`new SharedArrayBuffer(4)` (line 134), and posting the `open` handshake
envelope (lines 138–145). -/
structure FactoryEffects where
  workerCreated : Bool
  channelCreated : Bool
  signalAllocated : Bool
  openPosted : Bool
deriving DecidableEq, Repr

/-- The factory `yellowlet(f)` (`src/yellowlet.ts` lines 122–195): if `f`
is not a function it throws a TypeError (lines 125–127) before any
resource is created; otherwise it creates the Worker, the MessageChannel
and the 4-byte SharedArrayBuffer, posts the `open` envelope, and returns
the wrapper — all of this happens in the factory body itself, before the
wrapper is ever invoked. -/
def yellowlet (f : JSValue) : Except JSValue FactoryEffects :=
  if isFunction f = false then
    Except.error (.errorObj "TypeError" "f is not a function")
  else
    let e0 : FactoryEffects :=
      { workerCreated := false, channelCreated := false,
        signalAllocated := false, openPosted := false }
    let e1 : FactoryEffects := { e0 with workerCreated := true }
    let e2 : FactoryEffects := { e1 with channelCreated := true }
    let e3 : FactoryEffects := { e2 with signalAllocated := true }
    let e4 : FactoryEffects := { e3 with openPosted := true }
    Except.ok e4

/-- Caller-side lifecycle events of one session. -/
inductive SessionEvent where
  | invokeCall
  | timePasses (units : Nat)
  | handleUnreachable
deriving DecidableEq, Repr

/-- Whether the session's Worker thread is still alive. -/
inductive SessionStatus where
  | live
  | terminated
deriving DecidableEq, Repr

/-- Session lifecycle step, translated from `src/yellowlet.ts`: the only
termination path in the source is the `FinalizationRegistry` callback
`worker.terminate()` (lines 96–98), registered for the wrapper at line
192 and fired when the wrapper becomes unreachable.  The source contains
no timer of any kind, so the passage of time leaves the session
unchanged, and invoking never terminates it. -/
def sessionStep : SessionStatus → SessionEvent → SessionStatus
  | st, .invokeCall => st
  | st, .timePasses _ => st
  | _, .handleUnreachable => .terminated

/-- A session's status after a sequence of lifecycle events. -/
def sessionRun (st : SessionStatus) (evs : List SessionEvent) :
    SessionStatus :=
  evs.foldl sessionStep st

/-- The computation `x => x * 2` of the spec's scenario, as a dispatcher
computation: ignores the `this`-context, doubles a single numeric
argument. -/
def double : JSValue → List JSValue → Except JSValue JSValue :=
  fun _ args =>
    match args with
    | [.num n] => .ok (.num (n * 2))
    | _ => .error (.errorObj "TypeError" "expected one number")

/-- The computation `() => { throw new Error("boom") }` of the spec's
scenario. -/
def boom : JSValue → List JSValue → Except JSValue JSValue :=
  fun _ _ => .error (.errorObj "Error" "boom")

/-- A session whose port queue still holds a stale settle envelope whose
correlation id belongs to no current call. -/
def staleState : SessionState :=
  { initState with toCaller := [⟨"fulfilled", "old0", .num 7⟩] }

/-- A session whose signal word is `1` (`Pending`): a call is already in
flight. -/
def busyState : SessionState :=
  { initState with signal := 1 }

end Yellowlet

namespace Yellowlet

/-- C5: The Transfer Classifier is a pure, total predicate: it returns true
iff the value is a non-null object of one of the recognized transferable
kinds (ImageBitmap and OffscreenCanvas only when the platform provides
them), and false on null, undefined, primitives, functions, and all other
objects. -/
theorem C5_isTransferable_spec (p : Platform) (o : JSValue) :
    isTransferable p o = specTransferable p o := by
  cases o <;> cases p <;>
    simp [isTransferable, specTransferable, truthy, typeofIsObject,
      isArrayBufferInst, isMessagePortInst, isReadableStreamInst,
      isWritableStreamInst, isTransformStreamInst, isImageBitmapInst,
      isOffscreenCanvasInst]

/-- C1 evaluated at its failing input: wrapping `x => x * 2` and calling
the handle with `21` does not return `42`.  The worker computes `42` and
posts the fulfilled settle envelope with the matching correlation id, but
posts it with `globalThis.postMessage` to the Worker's owner channel,
which the caller never reads; the `port1` queue that
`receiveMessageOnPort(port)` drains stays empty, so the call throws the
TypeError of `src/yellowlet.ts` line 174 instead of returning the
value. -/
theorem C1_scenario_settle_lost :
    ((invoke double initState .globalObj [.num 21] "ab").1).ownerQueue =
        [⟨"fulfilled", "ab", .num 42⟩] ∧
    ((invoke double initState .globalObj [.num 21] "ab").1).toCaller =
        [] ∧
    (invoke double initState .globalObj [.num 21] "ab").2 =
        .throws undefinedMessageTypeError := by
  decide

/-- C2 evaluated at its failing input: wrapping
`() => { throw new Error("boom") }` and calling the handle does not raise
the boom error.  The worker posts the rejected settle envelope carrying
the boom payload, but to the Worker's owner channel; the drained `port1`
queue stays empty, so the call throws the TypeError of
`src/yellowlet.ts` line 174 instead of the propagated reason. -/
theorem C2_rejection_settle_lost :
    ((invoke boom initState .globalObj [] "ab2").1).ownerQueue =
        [⟨"rejected", "ab2", .errorObj "Error" "boom"⟩] ∧
    ((invoke boom initState .globalObj [] "ab2").1).toCaller = [] ∧
    (invoke boom initState .globalObj [] "ab2").2 =
        .throws undefinedMessageTypeError := by
  decide

/-- Counterexample to C3: when the drained settle envelope's correlation
id (`"old0"`, from a stale message) does not match the call's id
(`"new1"`), the wrapper call throws the empty plain object `{}` — an
empty, opaque error value with no diagnostic — contradicting the claim
that an internal bridge error with a clear diagnostic is raised and that
an empty or opaque error is never thrown (`throw {}` at
`src/yellowlet.ts` line 186). -/
theorem C3_counterexample :
    (invoke double staleState .globalObj [.num 21] "new1").2 =
      .throws (.plainObj []) := by
  decide

/-- C3 as amended: on a correlation-id mismatch, or on a matching-id
envelope whose type is neither `"fulfilled"` nor `"rejected"`, the
wrapper call does raise (the failure is not silently swallowed), but the
raised value is the empty plain object `{}`, carrying no diagnostic and
not distinguishable by content from a computation error that throws
`{}`. -/
theorem C3_amended_empty_object_thrown (id : String) (m : RawMessage)
    (h : m.id ≠ id ∨ (m.type ≠ "fulfilled" ∧ m.type ≠ "rejected")) :
    settleResult id m = .throws (.plainObj []) := by
  rcases h with h | ⟨h1, h2⟩
  · simp [settleResult, h, emptyObject]
  · by_cases hid : m.id = id <;>
      simp [settleResult, hid, h1, h2, emptyObject]

/-- Witness for the amended C3: a drained envelope with matching id but
unknown type `"weird"` makes the call throw `{}`. -/
theorem C3_amended_empty_object_thrown_witness :
    settleResult "aaaa" ⟨"weird", "aaaa", .num 1⟩ =
      .throws (.plainObj []) :=
  C3_amended_empty_object_thrown "aaaa" ⟨"weird", "aaaa", .num 1⟩
    (Or.inr ⟨by decide, by decide⟩)

/-- C4 evaluated at its failing input: the signal-word discipline itself
is implemented — from a fresh session the event log is exactly: caller
writes `1` (`Pending`), caller posts the call envelope, the worker posts
a settle envelope carrying the same correlation id (to the owner
channel), the worker writes `2` (`Resolved`) only after that post, and
the caller writes `0` (`Available`) before attempting to drain; the
signal word only ever takes the values 0, 1, 2 and ends at
`Available(0)`.  But the claimed consequence fails: a drained event never
occurs — the drained `port1` queue is empty because the settle went to
the owner channel — so each of two sequential invocations throws the
line-174 TypeError instead of producing its own correct result. -/
theorem C4_discipline_but_drain_fails
    (f : JSValue → List JSValue → Except JSValue JSValue)
    (thisVal : JSValue) (args : List JSValue) (id : String)
    (args2 : List JSValue) (id2 : String) :
    (∃ m : RawMessage, m.id = id ∧
      ((invoke f initState thisVal args id).1).log =
        [.sigWrite 1, .callPosted id, .settlePosted m, .sigWrite 2,
         .sigWrite 0]) ∧
    ((invoke f initState thisVal args id).1).signal = 0 ∧
    (∀ v, Event.sigWrite v ∈ ((invoke f initState thisVal args id).1).log →
      v = 0 ∨ v = 1 ∨ v = 2) ∧
    (invoke f initState thisVal args id).2 =
        .throws undefinedMessageTypeError ∧
    (invoke f ((invoke f initState thisVal args id).1) thisVal args2
        id2).2 = .throws undefinedMessageTypeError := by
  cases hf : f (computeThat thisVal) args with
  | ok val =>
      refine ⟨⟨⟨"fulfilled", id, val⟩, rfl, ?_⟩, ?_, ?_, ?_, ?_⟩
      · simp [invoke, callerSend, workerMain, callerReceive, settleResult,
          initState, hf]
      · simp [invoke, callerSend, workerMain, callerReceive, settleResult,
          initState, hf]
      · intro v hv
        simp [invoke, callerSend, workerMain, callerReceive, settleResult,
          initState, hf] at hv
        omega
      · simp [invoke, callerSend, workerMain, callerReceive, settleResult,
          initState, hf]
      · cases hf2 : f (computeThat thisVal) args2 <;>
          simp [invoke, callerSend, workerMain, callerReceive,
            settleResult, initState, hf, hf2]
  | error e =>
      refine ⟨⟨⟨"rejected", id, e⟩, rfl, ?_⟩, ?_, ?_, ?_, ?_⟩
      · simp [invoke, callerSend, workerMain, callerReceive, settleResult,
          initState, hf]
      · simp [invoke, callerSend, workerMain, callerReceive, settleResult,
          initState, hf]
      · intro v hv
        simp [invoke, callerSend, workerMain, callerReceive, settleResult,
          initState, hf] at hv
        omega
      · simp [invoke, callerSend, workerMain, callerReceive, settleResult,
          initState, hf]
      · cases hf2 : f (computeThat thisVal) args2 <;>
          simp [invoke, callerSend, workerMain, callerReceive,
            settleResult, initState, hf, hf2]

/-- Counterexample to C6: the factory applied to a function creates the
Worker thread, the duplex channel and the signal word and posts the open
handshake envelope in its own body, before any invocation of the wrapper
(`src/yellowlet.ts` lines 129–145 run unconditionally inside
`yellowlet`), contradicting the claim that none of this happens at wrap
time. -/
theorem C6_counterexample :
    yellowlet (.func "f") =
      Except.ok { workerCreated := true, channelCreated := true,
                  signalAllocated := true, openPosted := true } := rfl

/-- C6 as amended: for every function argument, the factory itself
creates the execution thread, establishes the duplex channel, allocates
the signal word and posts the open handshake envelope — all at wrap time,
before the returned wrapper is ever invoked. -/
theorem C6_amended_eager_creation (f : JSValue)
    (h : isFunction f = true) :
    yellowlet f =
      Except.ok { workerCreated := true, channelCreated := true,
                  signalAllocated := true, openPosted := true } := by
  simp [yellowlet, h]

/-- Witness for the amended C6 at a concrete function value. -/
theorem C6_amended_eager_creation_witness :
    yellowlet (.func "g") =
      Except.ok { workerCreated := true, channelCreated := true,
                  signalAllocated := true, openPosted := true } :=
  C6_amended_eager_creation (.func "g") rfl

/-- C7 evaluated at the failing input: the source has no idle timer, so a
session that receives no invocation for 5 (or any number of) time units
stays live — it never transitions to `terminated` by inactivity; the only
termination path is the `FinalizationRegistry` callback that fires when
the wrapper handle becomes unreachable. -/
theorem C7_no_idle_timeout (n : Nat) :
    sessionRun SessionStatus.live [SessionEvent.timePasses n] =
        SessionStatus.live ∧
    sessionRun SessionStatus.live [SessionEvent.timePasses 5] =
        SessionStatus.live ∧
    sessionRun SessionStatus.live [SessionEvent.handleUnreachable] =
        SessionStatus.terminated := by
  exact ⟨rfl, rfl, rfl⟩

/-- Counterexample to C8: invoking the wrapper while the session's signal
word is `1` (a call already in flight) does not fail fast with a
session-busy error — `run` (`src/yellowlet.ts` lines 154–169) never
inspects the signal's prior value, so the call posts a second call
envelope and proceeds through the whole protocol, ending in the same
lost-settle TypeError as every invocation, which is not a session-busy
error. -/
theorem C8_busy_counterexample :
    Event.callPosted "cd" ∈
      ((invoke double busyState .globalObj [.num 21] "cd").1).log ∧
    (invoke double busyState .globalObj [.num 21] "cd").2 =
        .throws undefinedMessageTypeError := by
  decide

/-- C8 as amended: `run` performs no in-flight check at all — its
behaviour is identical for every prior value of the signal word: it sets
the signal to `Pending`, posts the call envelope and proceeds; no
session-busy error exists. -/
theorem C8_amended_no_busy_check
    (f : JSValue → List JSValue → Except JSValue JSValue) (s0 : Nat)
    (thisVal : JSValue) (args : List JSValue) (id : String) :
    invoke f { initState with signal := s0 } thisVal args id =
        invoke f initState thisVal args id ∧
    Event.callPosted id ∈
      ((invoke f { initState with signal := s0 } thisVal args
          id).1).log := by
  constructor
  · cases hf : f (computeThat thisVal) args <;>
      simp [invoke, callerSend, workerMain, callerReceive, settleResult,
        initState, hf]
  · cases hf : f (computeThat thisVal) args <;>
      simp [invoke, callerSend, workerMain, callerReceive, settleResult,
        initState, hf]

/-- C9: For every argument that is not a function, the factory throws a
TypeError and returns no wrapper, and in particular no execution thread
is created (the type check at `src/yellowlet.ts` lines 125–127 precedes
`new Worker` at line 129). -/
theorem C9_nonfunction_typeerror (f : JSValue)
    (h : isFunction f = false) :
    yellowlet f =
        Except.error (.errorObj "TypeError" "f is not a function") ∧
    ∀ eff : FactoryEffects, yellowlet f ≠ Except.ok eff := by
  constructor
  · simp [yellowlet, h]
  · intro eff
    simp [yellowlet, h]

/-- Witness for C9 at a concrete non-function argument. -/
theorem C9_nonfunction_typeerror_witness :
    yellowlet (.num 3) =
        Except.error (.errorObj "TypeError" "f is not a function") ∧
    ∀ eff : FactoryEffects, yellowlet (.num 3) ≠ Except.ok eff :=
  C9_nonfunction_typeerror (.num 3) rfl

/-- C10: The call envelope's `this`-context field is `undefined` exactly
when the invocation's `this` is the global object; every other
`this`-context is carried unchanged (`src/yellowlet.ts` line 158). -/
theorem C10_this_substitution (st : SessionState) (thisVal : JSValue)
    (args : List JSValue) (id : String) :
    (thisVal = .globalObj →
      ((callerSend st thisVal args id).2).thisVal = .undef) ∧
    (thisVal ≠ .globalObj →
      ((callerSend st thisVal args id).2).thisVal = thisVal) := by
  constructor <;> intro h <;> simp [callerSend, computeThat, h]

/-- Witness for C10: with `this = globalThis` the envelope carries
`undefined`; with `this = 5` it carries `5`. -/
theorem C10_this_substitution_witness :
    ((callerSend initState .globalObj [] "w1").2).thisVal = .undef ∧
    ((callerSend initState (.num 5) [] "w1").2).thisVal = .num 5 :=
  ⟨(C10_this_substitution initState .globalObj [] "w1").1 rfl,
   (C10_this_substitution initState (.num 5) [] "w1").2 (by decide)⟩

end Yellowlet
